import Mathlib

/-!
Verification development for the declarative XML input-mutation engine of
`aiida-fleur` (`aiida_fleur/data/fleurinpmodifier.py`): the `FleurinpModifier`
class, its task recorders, the `apply_modifications` replay loop, the
`modify_fleurinpdata` calcfunction (Freeze), and the `validate`/`show`/`undo`
helpers.

The XML trees handled by `lxml.etree` are modelled as a flat record of a root
tag, root attributes and a list of top-level items; an item is either a plain
element (tag, attributes, text) or an unresolved cross-document XInclude
directive.  `tree.xinclude()` replaces each include directive by the item the
external resolver yields for its href.  A compiled `etree.XMLSchema` is a
boolean predicate on trees; parsing and serialising are opaque environment
functions.
-/

namespace AiidaFleur

/-- A top-level item of a parsed XML document: either an ordinary element
(tag, attributes, text content) or an unresolved XInclude directive. -/
inductive XMLItem where
  | elem (tag : String) (attrs : List (String × String)) (text : String)
  | xinclude (href : String)
deriving DecidableEq, Repr

/-- A parsed XML tree (the model of an `lxml` ElementTree): root tag, root
attributes, and the ordered list of top-level items. -/
structure XMLTree where
  rootTag : String
  rootAttrs : List (String × String)
  items : List XMLItem
deriving DecidableEq, Repr

/-- `tree.xinclude()` of `lxml`: replace every XInclude directive by the item
the resolver returns for its href.  Ordinary elements are untouched. -/
def XMLTree.xincludeResolve (resolver : String → XMLItem) (t : XMLTree) : XMLTree :=
  { t with items := t.items.map fun it =>
      match it with
      | .xinclude href => resolver href
      | e => e }

/-- `true` iff the tree still contains an unresolved XInclude directive. -/
def XMLTree.hasUnresolvedIncludes (t : XMLTree) : Bool :=
  t.items.any fun it =>
    match it with
    | .xinclude _ => true
    | _ => false

/-- One stored argument of a recorded task (Python values in the task tuple). -/
inductive Arg where
  | str (s : String)
  | int (n : Int)
  | bool (b : Bool)
  | intList (l : List Int)
  | elem (e : XMLItem)
  | dict (d : List (String × String))
  | none
deriving DecidableEq, Repr

/-- A recorded task: the tuple `(operation_name, positional_args...)` appended
to `FleurinpModifier._tasks`. -/
structure Task where
  name : String
  args : List Arg
deriving DecidableEq, Repr

/-- The type of one registry value in the `actions` dict of
`apply_modifications`: a pure transformation taking the working tree and the
task's stored arguments `task[1:]` and returning the new working tree. -/
def Applier : Type := XMLTree → List Arg → XMLTree

/-- Modelled from the spec: the per-operation edit implementations
(`xml_set_attribv_occ`, ..., `add_num_to_att` of `aiida_fleur.tools.xml_util`,
and the bodies of the local wrappers `set_inpchanges1`/`set_nkpts1` that
delegate to `write_new_fleur_xmlinp_file`/`replace_tag`) are not part of the
sources at hand; each operation is a pure function
`(document, *args) -> document'`, so the registry values are opaque appliers,
one per registered operation name. -/
structure OperationAppliers where
  xml_set_attribv_occ : Applier
  xml_set_first_attribv : Applier
  xml_set_all_attribv : Applier
  xml_set_text : Applier
  xml_set_text_occ : Applier
  xml_set_all_text : Applier
  create_tag : Applier
  replace_tag : Applier
  delete_tag : Applier
  delete_att : Applier
  set_species : Applier
  set_species_label : Applier
  set_atomgr_att : Applier
  set_atomgr_att_label : Applier
  set_inpchanges : Applier
  set_nkpts : Applier
  add_num_to_att : Applier

/-- The `actions` dict built inside `apply_modifications`: the fixed table
mapping the seventeen registered operation names to their appliers. -/
def actions (ops : OperationAppliers) : List (String × Applier) :=
  [("xml_set_attribv_occ", ops.xml_set_attribv_occ),
   ("xml_set_first_attribv", ops.xml_set_first_attribv),
   ("xml_set_all_attribv", ops.xml_set_all_attribv),
   ("xml_set_text", ops.xml_set_text),
   ("xml_set_text_occ", ops.xml_set_text_occ),
   ("xml_set_all_text", ops.xml_set_all_text),
   ("create_tag", ops.create_tag),
   ("replace_tag", ops.replace_tag),
   ("delete_tag", ops.delete_tag),
   ("delete_att", ops.delete_att),
   ("set_species", ops.set_species),
   ("set_species_label", ops.set_species_label),
   ("set_atomgr_att", ops.set_atomgr_att),
   ("set_atomgr_att_label", ops.set_atomgr_att_label),
   ("set_inpchanges", ops.set_inpchanges),
   ("set_nkpts", ops.set_nkpts),
   ("add_num_to_att", ops.add_num_to_att)]

/-- The registered operation names, i.e. the keys of the `actions` dict. -/
def registeredNames : List String :=
  ["xml_set_attribv_occ", "xml_set_first_attribv", "xml_set_all_attribv",
   "xml_set_text", "xml_set_text_occ", "xml_set_all_text", "create_tag",
   "replace_tag", "delete_tag", "delete_att", "set_species",
   "set_species_label", "set_atomgr_att", "set_atomgr_att_label",
   "set_inpchanges", "set_nkpts", "add_num_to_att"]

/-- The error raised by `apply_modifications`:
`ValueError("Unknown task {}".format(task[0]))` carrying the offending
operation name. -/
inductive ApplyError where
  | unknownTask (name : String)
deriving DecidableEq, Repr

/-- The result of `apply_modifications`: the returned working tree together
with whether the `print('changes were not valid: {}')` warning was emitted
because the schema-validation of the include-resolved copy failed. -/
structure ApplyResult where
  tree : XMLTree
  invalidWarning : Bool
deriving DecidableEq, Repr

/-- The `for task in modification_tasks:` loop of `apply_modifications`:
look each task's name up in the `actions` dict (raising on a `KeyError`),
invoke the applier on the current working tree and the stored arguments, and
continue with the returned tree. -/
def applyLoop (ops : OperationAppliers) : List Task → XMLTree → Except ApplyError XMLTree
  | [], workingtree => .ok workingtree
  | task :: rest, workingtree =>
    match List.lookup task.name (actions ops) with
    | Option.none => .error (.unknownTask task.name)
    | some action => applyLoop ops rest (action workingtree task.args)

/-- The `task.name`-indexed step function: apply the registered applier for
the task's name to the working tree (identity for an unregistered name, a
case the replay loop never reaches because it raises there instead). -/
def applyTask (ops : OperationAppliers) (workingtree : XMLTree) (task : Task) : XMLTree :=
  match List.lookup task.name (actions ops) with
  | Option.none => workingtree
  | some action => action workingtree task.args

/-- `FleurinpModifier.apply_modifications(fleurinp_tree_copy,
modification_tasks, schema_tree=None)`: replay the tasks in order on the
working tree; afterwards deep-copy the working tree, resolve its XIncludes,
and — when a schema was supplied — validate the resolved copy, printing a
warning (without raising and without undoing any edit) when validation
fails; return the (include-unresolved) working tree. -/
def apply_modifications (ops : OperationAppliers) (resolver : String → XMLItem)
    (fleurinp_tree_copy : XMLTree) (modification_tasks : List Task)
    (schema_tree : Option (XMLTree → Bool)) : Except ApplyError ApplyResult :=
  match applyLoop ops modification_tasks fleurinp_tree_copy with
  | .error e => .error e
  | .ok workingtree =>
    let workingtree_x := XMLTree.xincludeResolve resolver workingtree
    match schema_tree with
    | Option.none => .ok { tree := workingtree, invalidWarning := false }
    | some xmlschema => .ok { tree := workingtree, invalidWarning := !(xmlschema workingtree_x) }

/-- A `FleurinpData` node: its repository files (name, byte content), the
schema file path attribute, and the label/description strings. -/
structure FleurinpData where
  files : List (String × String)
  schemaFilePath : String
  label : String
  description : String
deriving DecidableEq, Repr

/-- `FleurinpData.del_file(key)`: drop the named inner file. -/
def FleurinpData.del_file (d : FleurinpData) (key : String) : FleurinpData :=
  { d with files := d.files.filter fun p => p.1 != key }

/-- `FleurinpData._add_path(path, key)`: add a file under `key` with the given
content (the temporary on-disk file is removed right after, so only the
content matters). -/
def FleurinpData.add_path (d : FleurinpData) (content key : String) : FleurinpData :=
  { d with files := d.files ++ [(key, content)] }

/-- The external collaborators threaded through the modifier: the opaque
per-operation appliers, `lxml` parsing/serialisation, schema lookup by file
path (a compiled schema is a boolean validator on trees; `Option.none` when
`etree.parse(self._original._schema_file_path)` fails), and the XInclude
resolver. -/
structure Env where
  ops : OperationAppliers
  parse : String → XMLTree
  serialize : XMLTree → String
  schemaAt : String → Option (XMLTree → Bool)
  resolver : String → XMLItem

/-- An error escaping `modify_fleurinpdata` or `validate`/`show`:
a missing `inp.xml`, a missing/unreadable schema file,
`ValueError("Input file is not validated against the schema.")`, or the
`ValueError("Unknown task ...")` propagated from `apply_modifications`. -/
inductive ModifyError where
  | fileNotFound
  | schemaNotFound
  | invalidInput
  | unknownTask (name : String)
deriving DecidableEq, Repr

/-- Map an error of `apply_modifications` into the surrounding call's error. -/
def liftApplyError : ApplyError → ModifyError
  | .unknownTask n => .unknownTask n

/-- The calcfunction `FleurinpModifier.modify_fleurinpdata(original,
modifications)` (Freeze body): clone the original, open its `inp.xml`, load
and compile the schema, parse the file, resolve XIncludes on a deep copy and
validate the baseline against the schema (raising before any task is
applied when it does not validate), replay the tasks through
`apply_modifications` (no schema passed there), serialise the resulting
tree, replace `inp.xml` inside the clone, and return the relabelled clone. -/
def modify_fleurinpdata (env : Env) (original : FleurinpData) (tasks : List Task) :
    Except ModifyError FleurinpData :=
  let new_fleurinp := original
  match List.lookup "inp.xml" new_fleurinp.files with
  | Option.none => .error .fileNotFound
  | some inpxmlfile =>
    match env.schemaAt new_fleurinp.schemaFilePath with
    | Option.none => .error .schemaNotFound
    | some xmlschema =>
      let tree := env.parse inpxmlfile
      let tree_x := XMLTree.xincludeResolve env.resolver tree
      if !(xmlschema tree_x) then .error .invalidInput
      else
        match apply_modifications env.ops env.resolver tree tasks Option.none with
        | .error e => .error (liftApplyError e)
        | .ok r =>
          let new_fleurtree := r.tree
          let newContent := env.serialize new_fleurtree
          let upd := (new_fleurinp.del_file "inp.xml").add_path newContent "inp.xml"
          .ok { upd with
                  label := "mod_fleurinp",
                  description := "Fleurinpdata with modifications (see inputs of modify_fleurinpdata)" }

/-- The in-memory state of a `FleurinpModifier` session: the read-only
reference to the baseline `FleurinpData` and the ordered task list. -/
structure FleurinpModifier where
  original : FleurinpData
  tasks : List Task
deriving DecidableEq, Repr

/-- `FleurinpModifier(original)`: a fresh session with an empty task list. -/
def FleurinpModifier.init (original : FleurinpData) : FleurinpModifier :=
  { original := original, tasks := [] }

/-- Append one recorded task to the session's task list. -/
def FleurinpModifier.append (m : FleurinpModifier) (t : Task) : FleurinpModifier :=
  { m with tasks := m.tasks ++ [t] }

/-!
The recorder methods, one per registered operation name.  A Python optional
keyword argument is modelled as an `Option` parameter, `Option.none` standing
for an omitted argument; the recorder substitutes the documented default
(`occ=[0]`, `mode="abs"`, `create=False`, `occ=0`, `gamma='F'`) exactly where
the source does.
-/

/-- `xml_set_attribv_occ(xpathn, attributename, attribv, occ=None,
create=False)`: default the occurrence list to `[0]` when `occ` is `None`. -/
def FleurinpModifier.xml_set_attribv_occ (m : FleurinpModifier)
    (xpathn attributename : String) (attribv : Arg)
    (occ : Option (List Int)) (create : Option Bool) : FleurinpModifier :=
  m.append ⟨"xml_set_attribv_occ",
    [.str xpathn, .str attributename, attribv, .intList (occ.getD [0]),
     .bool (create.getD false)]⟩

/-- `xml_set_first_attribv(xpathn, attributename, attribv, create=False)`. -/
def FleurinpModifier.xml_set_first_attribv (m : FleurinpModifier)
    (xpathn attributename : String) (attribv : Arg) (create : Option Bool) :
    FleurinpModifier :=
  m.append ⟨"xml_set_first_attribv",
    [.str xpathn, .str attributename, attribv, .bool (create.getD false)]⟩

/-- `xml_set_all_attribv(xpathn, attributename, attribv, create=False)`. -/
def FleurinpModifier.xml_set_all_attribv (m : FleurinpModifier)
    (xpathn attributename : String) (attribv : Arg) (create : Option Bool) :
    FleurinpModifier :=
  m.append ⟨"xml_set_all_attribv",
    [.str xpathn, .str attributename, attribv, .bool (create.getD false)]⟩

/-- `xml_set_text(xpathn, text, create=False)`. -/
def FleurinpModifier.xml_set_text (m : FleurinpModifier)
    (xpathn text : String) (create : Option Bool) : FleurinpModifier :=
  m.append ⟨"xml_set_text", [.str xpathn, .str text, .bool (create.getD false)]⟩

/-- `xml_set_text_occ(xpathn, text, create=False, occ=0)`: note the recorded
tuple stores `create` before `occ`. -/
def FleurinpModifier.xml_set_text_occ (m : FleurinpModifier)
    (xpathn text : String) (create : Option Bool) (occ : Option Int) :
    FleurinpModifier :=
  m.append ⟨"xml_set_text_occ",
    [.str xpathn, .str text, .bool (create.getD false), .int (occ.getD 0)]⟩

/-- `xml_set_all_text(xpathn, text, create=False)`. -/
def FleurinpModifier.xml_set_all_text (m : FleurinpModifier)
    (xpathn text : String) (create : Option Bool) : FleurinpModifier :=
  m.append ⟨"xml_set_all_text", [.str xpathn, .str text, .bool (create.getD false)]⟩

/-- `create_tag(xpath, newelement, create=False)`. -/
def FleurinpModifier.create_tag (m : FleurinpModifier)
    (xpath : String) (newelement : XMLItem) (create : Option Bool) :
    FleurinpModifier :=
  m.append ⟨"create_tag", [.str xpath, .elem newelement, .bool (create.getD false)]⟩

/-- `delete_att(xpath, attrib)`. -/
def FleurinpModifier.delete_att (m : FleurinpModifier) (xpath attrib : String) :
    FleurinpModifier :=
  m.append ⟨"delete_att", [.str xpath, .str attrib]⟩

/-- `delete_tag(xpath)`. -/
def FleurinpModifier.delete_tag (m : FleurinpModifier) (xpath : String) :
    FleurinpModifier :=
  m.append ⟨"delete_tag", [.str xpath]⟩

/-- `replace_tag(xpath, newelement)`. -/
def FleurinpModifier.replace_tag (m : FleurinpModifier) (xpath : String)
    (newelement : XMLItem) : FleurinpModifier :=
  m.append ⟨"replace_tag", [.str xpath, .elem newelement]⟩

/-- `set_species(species_name, attributedict, create=False)`. -/
def FleurinpModifier.set_species (m : FleurinpModifier)
    (species_name : String) (attributedict : Arg) (create : Option Bool) :
    FleurinpModifier :=
  m.append ⟨"set_species",
    [.str species_name, attributedict, .bool (create.getD false)]⟩

/-- `set_species_label(at_label, attributedict, create=False)`. -/
def FleurinpModifier.set_species_label (m : FleurinpModifier)
    (at_label : String) (attributedict : Arg) (create : Option Bool) :
    FleurinpModifier :=
  m.append ⟨"set_species_label",
    [.str at_label, attributedict, .bool (create.getD false)]⟩

/-- `set_atomgr_att(attributedict, position=None, species=None,
create=False)`: `position` and `species` are recorded as given (the Python
`None` default is `Arg.none`). -/
def FleurinpModifier.set_atomgr_att (m : FleurinpModifier)
    (attributedict : Arg) (position species : Option Arg) (create : Option Bool) :
    FleurinpModifier :=
  m.append ⟨"set_atomgr_att",
    [attributedict, position.getD Arg.none, species.getD Arg.none,
     .bool (create.getD false)]⟩

/-- `set_atomgr_att_label(attributedict, atom_label, create=False)`. -/
def FleurinpModifier.set_atomgr_att_label (m : FleurinpModifier)
    (attributedict : Arg) (atom_label : String) (create : Option Bool) :
    FleurinpModifier :=
  m.append ⟨"set_atomgr_att_label",
    [attributedict, .str atom_label, .bool (create.getD false)]⟩

/-- `set_inpchanges(change_dict)`. -/
def FleurinpModifier.set_inpchanges (m : FleurinpModifier) (change_dict : Arg) :
    FleurinpModifier :=
  m.append ⟨"set_inpchanges", [change_dict]⟩

/-- `set_nkpts(count, gamma='F')`. -/
def FleurinpModifier.set_nkpts (m : FleurinpModifier) (count : Int)
    (gamma : Option String) : FleurinpModifier :=
  m.append ⟨"set_nkpts", [.int count, .str (gamma.getD "F")]⟩

/-- `add_num_to_att(xpathn, attributename, set_val, mode='abs', occ=None,
create=False)`: default `mode` to `"abs"` and the occurrence list to `[0]`. -/
def FleurinpModifier.add_num_to_att (m : FleurinpModifier)
    (xpathn attributename : String) (set_val : Arg) (mode : Option String)
    (occ : Option (List Int)) (create : Option Bool) : FleurinpModifier :=
  m.append ⟨"add_num_to_att",
    [.str xpathn, .str attributename, set_val, .str (mode.getD "abs"),
     .intList (occ.getD [0]), .bool (create.getD false)]⟩

/-- `undo(all=False)`: with `all` true clear the task list; otherwise pop the
most recently appended task (no-op on an empty list); return the task list. -/
def FleurinpModifier.undo (m : FleurinpModifier) (all : Bool) :
    FleurinpModifier × List Task :=
  if all then ({ m with tasks := [] }, [])
  else ({ m with tasks := m.tasks.dropLast }, m.tasks.dropLast)

/-- `validate()`: open and parse the baseline's `inp.xml`; try to load the
schema, returning `None` (after printing) when that fails; otherwise run
`apply_modifications` on the fresh parse with the schema enabled and return
its result (tree plus warning flag); an unknown task name propagates. -/
def FleurinpModifier.validate (env : Env) (m : FleurinpModifier) :
    Except ModifyError (Option ApplyResult) :=
  match List.lookup "inp.xml" m.original.files with
  | Option.none => .error .fileNotFound
  | some inpxmlfile =>
    let tree := env.parse inpxmlfile
    match env.schemaAt m.original.schemaFilePath with
    | Option.none => .ok Option.none
    | some xmlschema =>
      match apply_modifications env.ops env.resolver tree m.tasks (some xmlschema) with
      | .error e => .error (liftApplyError e)
      | .ok r => .ok (some r)

/-- `show(display=True, validate=False)`: with `validate` true, delegate to
`validate()` (whose tree, possibly `None`, is returned); otherwise parse the
baseline's `inp.xml` afresh and replay the task list without a schema.
Printing via `display` has no further effect on the result. -/
def FleurinpModifier.show_ (env : Env) (m : FleurinpModifier) (validateFlag : Bool) :
    Except ModifyError (Option XMLTree) :=
  if validateFlag then
    match FleurinpModifier.validate env m with
    | .error e => .error e
    | .ok r => .ok (r.map ApplyResult.tree)
  else
    match List.lookup "inp.xml" m.original.files with
    | Option.none => .error .fileNotFound
    | some inpxmlfile =>
      let tree := env.parse inpxmlfile
      match apply_modifications env.ops env.resolver tree m.tasks Option.none with
      | .error e => .error (liftApplyError e)
      | .ok r => .ok (some r.tree)

/-- The persistence layer: the stored, immutable document nodes indexed by
their id, and the id the next stored node will receive. -/
structure Store where
  nodes : List (Nat × FleurinpData)
  nextId : Nat
deriving Repr

/-- Read a stored node by id. -/
def Store.get (s : Store) (i : Nat) : Option FleurinpData :=
  List.lookup i s.nodes

/-- `freeze()`: wrap the task list into an immutable parameter record and run
`modify_fleurinpdata` as a provenance-tracked calcfunction; on success the
produced `FleurinpData` is persisted as a new node of the store, on error
nothing is persisted and the error surfaces. -/
def FleurinpModifier.freeze (env : Env) (store : Store) (m : FleurinpModifier) :
    Store × Except ModifyError Nat :=
  match modify_fleurinpdata env m.original m.tasks with
  | .error e => (store, .error e)
  | .ok newData =>
    ({ nodes := store.nodes ++ [(store.nextId, newData)], nextId := store.nextId + 1 },
     .ok store.nextId)

/-- `show` threaded through the store: `show` performs no persistence call. -/
def FleurinpModifier.showS (env : Env) (store : Store) (m : FleurinpModifier)
    (validateFlag : Bool) : Store × Except ModifyError (Option XMLTree) :=
  (store, FleurinpModifier.show_ env m validateFlag)

/-- `validate` threaded through the store: it performs no persistence call. -/
def FleurinpModifier.validateS (env : Env) (store : Store) (m : FleurinpModifier) :
    Store × Except ModifyError (Option ApplyResult) :=
  (store, FleurinpModifier.validate env m)

/-! Helper lemmas about association-list lookup and the replay loop. -/

theorem lookup_cons {α β : Type} [BEq α] [LawfulBEq α] [DecidableEq α]
    (a k : α) (v : β) (l : List (α × β)) :
    List.lookup a ((k, v) :: l) = if a = k then some v else List.lookup a l := by
  simp only [List.lookup]
  cases h : a == k with
  | true => simp [eq_of_beq h]
  | false => simp [beq_eq_false_iff_ne.mp h]

theorem lookup_eq_none_of_not_mem {β : Type} (n : String) (l : List (String × β))
    (h : n ∉ l.map Prod.fst) : List.lookup n l = Option.none := by
  induction l with
  | nil => rfl
  | cons p l ih =>
    obtain ⟨k, v⟩ := p
    simp only [List.map_cons, List.mem_cons, not_or] at h
    rw [lookup_cons, if_neg h.1]
    exact ih h.2

theorem lookup_isSome_of_mem {β : Type} (n : String) (l : List (String × β))
    (h : n ∈ l.map Prod.fst) : ∃ v, List.lookup n l = some v := by
  induction l with
  | nil => simp at h
  | cons p l ih =>
    obtain ⟨k, v⟩ := p
    rw [lookup_cons]
    by_cases hk : n = k
    · exact ⟨v, if_pos hk⟩
    · simp only [List.map_cons, List.mem_cons, hk, false_or] at h
      rw [if_neg hk]
      exact ih h

/-- The keys of the `actions` dict are exactly the registered names. -/
theorem actions_keys (ops : OperationAppliers) :
    (actions ops).map Prod.fst = registeredNames := rfl

theorem lookup_actions_eq_none (ops : OperationAppliers) (n : String)
    (h : n ∉ registeredNames) : List.lookup n (actions ops) = Option.none :=
  lookup_eq_none_of_not_mem n (actions ops) (by rwa [actions_keys])

theorem lookup_actions_exists (ops : OperationAppliers) (n : String)
    (h : n ∈ registeredNames) : ∃ a, List.lookup n (actions ops) = some a :=
  lookup_isSome_of_mem n (actions ops) (by rwa [actions_keys])

/-- The replay loop on a task list of registered operations is the left fold
of the per-task step function over the list, threading the working tree. -/
theorem applyLoop_eq_foldl (ops : OperationAppliers) (tasks : List Task)
    (tree : XMLTree) (h : ∀ t ∈ tasks, t.name ∈ registeredNames) :
    applyLoop ops tasks tree = .ok (tasks.foldl (applyTask ops) tree) := by
  induction tasks generalizing tree with
  | nil => rfl
  | cons t rest ih =>
    obtain ⟨a, ha⟩ := lookup_actions_exists ops t.name (h t (List.mem_cons_self t rest))
    simp only [applyLoop, applyTask, ha, List.foldl_cons]
    exact ih (a tree t.args) fun x hx => h x (List.mem_cons_of_mem t hx)

/-- The replay loop applies a prefix of registered tasks first, then continues
on the remaining tasks from the working tree the prefix produced. -/
theorem applyLoop_append (ops : OperationAppliers) (pre rest : List Task)
    (tree : XMLTree) (h : ∀ t ∈ pre, t.name ∈ registeredNames) :
    applyLoop ops (pre ++ rest) tree
      = applyLoop ops rest (pre.foldl (applyTask ops) tree) := by
  induction pre generalizing tree with
  | nil => rfl
  | cons t p ih =>
    obtain ⟨a, ha⟩ := lookup_actions_exists ops t.name (h t (List.mem_cons_self t p))
    simp only [List.cons_append, applyLoop, applyTask, ha, List.foldl_cons]
    exact ih (a tree t.args) fun x hx => h x (List.mem_cons_of_mem t hx)

theorem lookup_append_of_some {β : Type} (i : Nat) (l l2 : List (Nat × β)) (b : β)
    (h : List.lookup i l = some b) : List.lookup i (l ++ l2) = some b := by
  induction l with
  | nil => simp [List.lookup] at h
  | cons p l ih =>
    obtain ⟨k, v⟩ := p
    rw [List.cons_append, lookup_cons] at *
    by_cases hk : i = k
    · rwa [if_pos hk] at h ⊢
    · rw [if_neg hk] at h ⊢
      exact ih h

/-! Concrete sample objects used by the witnesses and counterexamples. -/

/-- An applier that returns the working tree unchanged. -/
def idApplier : Applier := fun workingtree _ => workingtree

/-- An applier that stamps a marker attribute on the root. -/
def markApplier : Applier := fun workingtree _ =>
  { workingtree with rootAttrs := workingtree.rootAttrs ++ [("mark", "1")] }

/-- A sample registry: every operation edits the root attributes. -/
def sampleOps : OperationAppliers :=
  ⟨markApplier, markApplier, markApplier, markApplier, markApplier, markApplier,
   markApplier, markApplier, markApplier, markApplier, markApplier, markApplier,
   markApplier, markApplier, markApplier, markApplier, markApplier⟩

def sampleItem : XMLItem := .elem "calculationSetup" [("itmax", "1")] ""

def sampleTree : XMLTree := ⟨"fleurInput", [], [sampleItem]⟩

/-- A tree still carrying an unresolved XInclude directive. -/
def sampleIncTree : XMLTree := ⟨"fleurInput", [], [.xinclude "sym.xml"]⟩

def sampleData : FleurinpData :=
  ⟨[("inp.xml", "<fleurInput/>")], "FleurInputSchema.xsd", "fleurinp", ""⟩

/-- An environment whose schema accepts every tree. -/
def acceptEnv : Env :=
  ⟨sampleOps, fun _ => sampleIncTree, fun _ => "serialized",
   fun _ => some (fun _ => true), fun _ => sampleItem⟩

/-- An environment whose schema rejects every tree. -/
def rejectEnv : Env :=
  ⟨sampleOps, fun _ => sampleIncTree, fun _ => "serialized",
   fun _ => some (fun _ => false), fun _ => sampleItem⟩

def sampleStore : Store := ⟨[(0, sampleData)], 1⟩

def sampleModifier : FleurinpModifier := FleurinpModifier.init sampleData

def sampleTask : Task := ⟨"xml_set_text", [.str "/fleurInput", .str "t", .bool false]⟩

def sampleTask2 : Task := ⟨"delete_tag", [.str "/fleurInput/calculationSetup"]⟩

/-- A task whose operation name is not registered. -/
def badTask : Task := ⟨"bogus_op", []⟩

/-! The claims. -/

/-- Claim C1: for every baseline tree and every task list,
`apply_modifications` replays the tasks strictly in list order with no
reordering, deduplication, or skipping: the i-th applier is invoked with the
working tree produced by the (i-1)-th task (the baseline tree for i = 0), its
return value becomes the working tree for task i+1, and the tree returned
after the last task is the result. -/
theorem C1_tasks_replayed_in_list_order (ops : OperationAppliers)
    (resolver : String → XMLItem) (schema_tree : Option (XMLTree → Bool))
    (tree : XMLTree) (tasks : List Task)
    (h : ∀ t ∈ tasks, t.name ∈ registeredNames) :
    (∀ (t : Task) (rest : List Task) (wt : XMLTree) (a : Applier),
        List.lookup t.name (actions ops) = some a →
        applyLoop ops (t :: rest) wt = applyLoop ops rest (a wt t.args)) ∧
    applyLoop ops tasks tree = .ok (tasks.foldl (applyTask ops) tree) ∧
    ∃ r, apply_modifications ops resolver tree tasks schema_tree = .ok r ∧
      r.tree = tasks.foldl (applyTask ops) tree := by
  refine ⟨?_, applyLoop_eq_foldl ops tasks tree h, ?_⟩
  · intro t rest wt a ha
    simp only [applyLoop, ha]
  · unfold apply_modifications
    rw [applyLoop_eq_foldl ops tasks tree h]
    cases schema_tree <;> exact ⟨_, rfl, rfl⟩

theorem C1_witness :
    (∀ (t : Task) (rest : List Task) (wt : XMLTree) (a : Applier),
        List.lookup t.name (actions sampleOps) = some a →
        applyLoop sampleOps (t :: rest) wt = applyLoop sampleOps rest (a wt t.args)) ∧
    applyLoop sampleOps [sampleTask, sampleTask2] sampleTree
      = .ok ([sampleTask, sampleTask2].foldl (applyTask sampleOps) sampleTree) ∧
    ∃ r, apply_modifications sampleOps (fun _ => sampleItem) sampleTree
          [sampleTask, sampleTask2] Option.none = .ok r ∧
      r.tree = [sampleTask, sampleTask2].foldl (applyTask sampleOps) sampleTree :=
  C1_tasks_replayed_in_list_order sampleOps (fun _ => sampleItem) Option.none
    sampleTree [sampleTask, sampleTask2] (by decide)

/-- Claim C4: for every baseline tree and task list, when
`apply_modifications` is called with a schema and the fully edited working
tree fails schema validation, the failure is reported (the warning is
emitted) but `apply_modifications` does not raise and does not undo any edit:
it still returns the fully modified working tree, leaving the decision to
discard to the caller. -/
theorem C4_validation_failure_reported_not_raised (ops : OperationAppliers)
    (resolver : String → XMLItem) (xmlschema : XMLTree → Bool)
    (tree : XMLTree) (tasks : List Task) (wt : XMLTree)
    (happly : applyLoop ops tasks tree = .ok wt)
    (hinvalid : xmlschema (XMLTree.xincludeResolve resolver wt) = false) :
    apply_modifications ops resolver tree tasks (some xmlschema)
      = .ok { tree := wt, invalidWarning := true } := by
  unfold apply_modifications
  rw [happly]
  simp [hinvalid]

theorem C4_witness :
    apply_modifications sampleOps (fun _ => sampleItem) sampleTree [sampleTask]
        (some (fun _ => false))
      = .ok { tree := { rootTag := "fleurInput", rootAttrs := [("mark", "1")],
                        items := [sampleItem] },
              invalidWarning := true } :=
  C4_validation_failure_reported_not_raised sampleOps (fun _ => sampleItem)
    (fun _ => false) sampleTree [sampleTask] _ rfl rfl

/-- Claim C6: for every baseline tree and task list, the schema validation
step of `apply_modifications` resolves cross-document includes only on a
separate deep copy of the working tree: the tree actually returned is
unchanged by the validation step (it is the working tree the replay produced,
with the verdict computed on its include-resolved copy) and keeps its include
directives unresolved. -/
theorem C6_validation_on_separate_copy (ops : OperationAppliers)
    (resolver : String → XMLItem) (xmlschema : XMLTree → Bool)
    (tree : XMLTree) (tasks : List Task) (wt : XMLTree)
    (happly : applyLoop ops tasks tree = .ok wt) :
    apply_modifications ops resolver tree tasks (some xmlschema)
      = .ok { tree := wt,
              invalidWarning := !(xmlschema (XMLTree.xincludeResolve resolver wt)) } ∧
    ∀ r, apply_modifications ops resolver tree tasks (some xmlschema) = .ok r →
      r.tree.hasUnresolvedIncludes = wt.hasUnresolvedIncludes := by
  have heq : apply_modifications ops resolver tree tasks (some xmlschema)
      = .ok { tree := wt,
              invalidWarning := !(xmlschema (XMLTree.xincludeResolve resolver wt)) } := by
    unfold apply_modifications
    rw [happly]
  refine ⟨heq, fun r hr => ?_⟩
  rw [heq] at hr
  cases hr
  rfl

theorem C6_witness :
    apply_modifications sampleOps (fun _ => sampleItem) sampleIncTree []
        (some (fun t => !t.hasUnresolvedIncludes))
      = .ok { tree := sampleIncTree, invalidWarning := false } ∧
    ∀ r, apply_modifications sampleOps (fun _ => sampleItem) sampleIncTree []
          (some (fun t => !t.hasUnresolvedIncludes)) = .ok r →
      r.tree.hasUnresolvedIncludes = sampleIncTree.hasUnresolvedIncludes :=
  C6_validation_on_separate_copy sampleOps (fun _ => sampleItem)
    (fun t => !t.hasUnresolvedIncludes) sampleIncTree [] sampleIncTree rfl

/-- Claim C2: for every task list containing an entry whose operation name is
not one of the registered operation names, `apply_modifications` fails with
the unknown-operation error carrying the offending name; every task before
the unknown entry has been applied (the loop reaches the unknown entry with
the working tree the prefix produced), no task at or after the unknown entry
is applied (the error is returned there, whatever working tree and suffix),
and no modified document is persisted by the surrounding Freeze call. -/
theorem C2_unknown_operation_aborts_apply (ops : OperationAppliers)
    (resolver : String → XMLItem) (schema_tree : Option (XMLTree → Bool))
    (tree : XMLTree) (pre post : List Task) (bad : Task)
    (hpre : ∀ t ∈ pre, t.name ∈ registeredNames)
    (hbad : bad.name ∉ registeredNames) :
    apply_modifications ops resolver tree (pre ++ bad :: post) schema_tree
      = .error (.unknownTask bad.name) ∧
    applyLoop ops (pre ++ bad :: post) tree
      = applyLoop ops (bad :: post) (pre.foldl (applyTask ops) tree) ∧
    (∀ (wt : XMLTree) (post2 : List Task),
        applyLoop ops (bad :: post2) wt = .error (.unknownTask bad.name)) ∧
    ∀ (env : Env) (store : Store) (m : FleurinpModifier),
      m.tasks = pre ++ bad :: post →
      (FleurinpModifier.freeze env store m).1 = store ∧
      ∀ i, (FleurinpModifier.freeze env store m).2 ≠ .ok i := by
  have hloop : ∀ (ops2 : OperationAppliers) (t0 : XMLTree),
      applyLoop ops2 (pre ++ bad :: post) t0 = .error (.unknownTask bad.name) := by
    intro ops2 t0
    rw [applyLoop_append ops2 pre (bad :: post) t0 hpre]
    simp only [applyLoop, lookup_actions_eq_none ops2 bad.name hbad]
  refine ⟨?_, applyLoop_append ops pre (bad :: post) tree hpre, ?_, ?_⟩
  · unfold apply_modifications
    rw [hloop ops tree]
  · intro wt post2
    simp only [applyLoop, lookup_actions_eq_none ops bad.name hbad]
  · intro env store m hm
    have herr : ∃ e, modify_fleurinpdata env m.original m.tasks = .error e := by
      simp only [modify_fleurinpdata]
      cases h1 : List.lookup "inp.xml" m.original.files with
      | none => exact ⟨_, rfl⟩
      | some inpxmlfile =>
        cases h2 : env.schemaAt m.original.schemaFilePath with
        | none => exact ⟨_, rfl⟩
        | some xmlschema =>
          cases h3 : xmlschema (XMLTree.xincludeResolve env.resolver (env.parse inpxmlfile)) with
          | false => exact ⟨ModifyError.invalidInput, by simp [h3]⟩
          | true =>
            have ha : apply_modifications env.ops env.resolver (env.parse inpxmlfile)
                m.tasks Option.none = .error (.unknownTask bad.name) := by
              unfold apply_modifications
              rw [hm, hloop env.ops (env.parse inpxmlfile)]
            exact ⟨ModifyError.unknownTask bad.name, by simp [h3, ha, liftApplyError]⟩
    obtain ⟨e, he⟩ := herr
    constructor
    · simp [FleurinpModifier.freeze, he]
    · intro i hi
      simp [FleurinpModifier.freeze, he] at hi

theorem C2_witness :
    (apply_modifications sampleOps (fun _ => sampleItem) sampleTree
        ([sampleTask] ++ badTask :: [sampleTask2]) Option.none
      = .error (.unknownTask badTask.name)) ∧
    (applyLoop sampleOps ([sampleTask] ++ badTask :: [sampleTask2]) sampleTree
      = applyLoop sampleOps (badTask :: [sampleTask2])
          ([sampleTask].foldl (applyTask sampleOps) sampleTree)) ∧
    (∀ (wt : XMLTree) (post2 : List Task),
        applyLoop sampleOps (badTask :: post2) wt
          = .error (.unknownTask badTask.name)) ∧
    ∀ (env : Env) (store : Store) (m : FleurinpModifier),
      m.tasks = [sampleTask] ++ badTask :: [sampleTask2] →
      (FleurinpModifier.freeze env store m).1 = store ∧
      ∀ i, (FleurinpModifier.freeze env store m).2 ≠ .ok i :=
  C2_unknown_operation_aborts_apply sampleOps (fun _ => sampleItem) Option.none
    sampleTree [sampleTask] [sampleTask2] badTask (by decide) (by decide)

/-- Claim C3: for every baseline document whose include-resolved tree does
not validate against the schema, Freeze (`modify_fleurinpdata`) fails with
the schema-validation error before any task of the task list is applied,
regardless of the task list's contents (the outcome does not depend on the
tasks, nor on any applier). -/
theorem C3_freeze_rejects_invalid_baseline (env : Env) (original : FleurinpData)
    (inpxmlfile : String) (xmlschema : XMLTree → Bool)
    (hfile : List.lookup "inp.xml" original.files = some inpxmlfile)
    (hschema : env.schemaAt original.schemaFilePath = some xmlschema)
    (hinvalid : xmlschema (XMLTree.xincludeResolve env.resolver (env.parse inpxmlfile))
      = false) :
    ∀ (tasks : List Task) (ops2 : OperationAppliers),
      modify_fleurinpdata { env with ops := ops2 } original tasks
        = .error .invalidInput := by
  intro tasks ops2
  simp only [modify_fleurinpdata, hfile, hschema, hinvalid]
  simp

theorem C3_witness :
    modify_fleurinpdata { rejectEnv with ops := sampleOps } sampleData [sampleTask]
      = .error .invalidInput :=
  C3_freeze_rejects_invalid_baseline rejectEnv sampleData "<fleurInput/>"
    (fun _ => false) rfl rfl rfl [sampleTask] sampleOps

/-- Claim C5 (amended): for every modification session whose schema is
available, `validate()` applies the current task list to the baseline with
schema-checking enabled and, without persisting anything, returns the
candidate tree together with the validation report: when the candidate fails
schema validation it reports the failure (the printed warning flag) but still
returns the invalid candidate tree instead of failing with a
schema-validation error. -/
theorem C5_validate_returns_candidate_with_report (env : Env) (store : Store)
    (m : FleurinpModifier) (inpxmlfile : String) (xmlschema : XMLTree → Bool)
    (wt : XMLTree)
    (hfile : List.lookup "inp.xml" m.original.files = some inpxmlfile)
    (hschema : env.schemaAt m.original.schemaFilePath = some xmlschema)
    (happly : applyLoop env.ops m.tasks (env.parse inpxmlfile) = .ok wt) :
    FleurinpModifier.validate env m
      = .ok (some
          { tree := wt,
            invalidWarning := !(xmlschema (XMLTree.xincludeResolve env.resolver wt)) }) ∧
    (FleurinpModifier.validateS env store m).1 = store := by
  refine ⟨?_, rfl⟩
  simp only [FleurinpModifier.validate, hfile, hschema]
  unfold apply_modifications
  rw [happly]

theorem C5_witness :
    FleurinpModifier.validate rejectEnv sampleModifier
      = .ok (some
          { tree := sampleIncTree,
            invalidWarning :=
              !((fun _ => false : XMLTree → Bool)
                  (XMLTree.xincludeResolve rejectEnv.resolver sampleIncTree)) }) ∧
    (FleurinpModifier.validateS rejectEnv sampleStore sampleModifier).1 = sampleStore :=
  C5_validate_returns_candidate_with_report rejectEnv sampleStore sampleModifier
    "<fleurInput/>" (fun _ => false) sampleIncTree rfl rfl rfl

/-- Claim C5, as stated, is false on the code: with a schema available that
rejects the candidate tree, `validate()` neither raises nor returns an error
value — it returns the invalid candidate tree, carrying only the printed
warning flag. -/
theorem C5_counterexample :
    FleurinpModifier.validate rejectEnv sampleModifier
      = .ok (some { tree := sampleIncTree, invalidWarning := true }) ∧
    rejectEnv.schemaAt sampleModifier.original.schemaFilePath
      = some (fun _ => false) ∧
    (fun _ : XMLTree => false) sampleIncTree = false :=
  ⟨rfl, rfl, rfl⟩

/-- Claim C7: for every modification session and every task list, after any
Apply (`show`), Validate, or Freeze call the baseline document stored under
its id is byte-for-byte identical to its state before the call: all edits act
on a working copy (a fresh parse or a clone of the baseline's stored file),
never on the baseline itself. -/
theorem C7_baseline_never_mutated (env : Env) (store : Store)
    (m : FleurinpModifier) (validateFlag : Bool) (i : Nat) (b : FleurinpData)
    (hb : store.get i = some b) :
    (FleurinpModifier.showS env store m validateFlag).1.get i = some b ∧
    (FleurinpModifier.validateS env store m).1.get i = some b ∧
    (FleurinpModifier.freeze env store m).1.get i = some b := by
  refine ⟨hb, hb, ?_⟩
  cases hmod : modify_fleurinpdata env m.original m.tasks with
  | error e =>
    simp only [FleurinpModifier.freeze, hmod]
    exact hb
  | ok d =>
    simp only [FleurinpModifier.freeze, hmod, Store.get]
    exact lookup_append_of_some i store.nodes [(store.nextId, d)] b hb

theorem C7_witness :
    (FleurinpModifier.showS acceptEnv sampleStore sampleModifier false).1.get 0
      = some sampleData ∧
    (FleurinpModifier.validateS acceptEnv sampleStore sampleModifier).1.get 0
      = some sampleData ∧
    (FleurinpModifier.freeze acceptEnv sampleStore sampleModifier).1.get 0
      = some sampleData :=
  C7_baseline_never_mutated acceptEnv sampleStore sampleModifier false 0
    sampleData rfl

/-- Claim C8: for every session with N recorded tasks (N >= 1), `undo()`
removes exactly the most recently appended task, leaving the same N-1 tasks
as if the Nth had never been recorded; `undo()` on an empty task list is a
no-op; and `undo(all=True)` leaves zero tasks regardless of N. -/
theorem C8_undo_correctness (m : FleurinpModifier) :
    (∀ (ts : List Task) (t : Task), m.tasks = ts ++ [t] →
        (m.undo false).1 = { m with tasks := ts } ∧ (m.undo false).2 = ts) ∧
    (m.tasks = [] → m.undo false = (m, [])) ∧
    (m.undo true).1.tasks = [] := by
  refine ⟨?_, ?_, rfl⟩
  · intro ts t ht
    simp [FleurinpModifier.undo, ht, List.dropLast_concat]
  · intro h0
    obtain ⟨orig, tasks⟩ := m
    simp only at h0
    subst h0
    rfl

theorem C8_witness :
    ((sampleModifier.append sampleTask).undo false).1
        = { sampleModifier.append sampleTask with tasks := [] } ∧
    ((sampleModifier.append sampleTask).undo false).2 = [] :=
  (C8_undo_correctness (sampleModifier.append sampleTask)).1 [] sampleTask rfl

/-- Claim C9: for every recording call that omits its optional arguments, the
recorder applies the documented defaults before appending the task:
`xml_set_attribv_occ` and `add_num_to_att` record the occurrence list as
`[0]` when it is omitted, `add_num_to_att` records the mode as `"abs"` when
omitted, and every recorder with a creation flag records it as `false` when
omitted, so the appended task tuple always carries the fully defaulted
arguments. -/
theorem C9_recorder_defaults (m : FleurinpModifier)
    (xpathn attributename xpath text species_name at_label atom_label : String)
    (attribv set_val attributedict : Arg) (newelement : XMLItem) :
    (m.xml_set_attribv_occ xpathn attributename attribv Option.none Option.none).tasks
      = m.tasks ++ [⟨"xml_set_attribv_occ",
          [.str xpathn, .str attributename, attribv, .intList [0], .bool false]⟩] ∧
    (m.add_num_to_att xpathn attributename set_val Option.none Option.none
        Option.none).tasks
      = m.tasks ++ [⟨"add_num_to_att",
          [.str xpathn, .str attributename, set_val, .str "abs", .intList [0],
           .bool false]⟩] ∧
    (m.xml_set_first_attribv xpathn attributename attribv Option.none).tasks
      = m.tasks ++ [⟨"xml_set_first_attribv",
          [.str xpathn, .str attributename, attribv, .bool false]⟩] ∧
    (m.xml_set_all_attribv xpathn attributename attribv Option.none).tasks
      = m.tasks ++ [⟨"xml_set_all_attribv",
          [.str xpathn, .str attributename, attribv, .bool false]⟩] ∧
    (m.xml_set_text xpathn text Option.none).tasks
      = m.tasks ++ [⟨"xml_set_text", [.str xpathn, .str text, .bool false]⟩] ∧
    (m.xml_set_text_occ xpathn text Option.none Option.none).tasks
      = m.tasks ++ [⟨"xml_set_text_occ",
          [.str xpathn, .str text, .bool false, .int 0]⟩] ∧
    (m.xml_set_all_text xpathn text Option.none).tasks
      = m.tasks ++ [⟨"xml_set_all_text", [.str xpathn, .str text, .bool false]⟩] ∧
    (m.create_tag xpath newelement Option.none).tasks
      = m.tasks ++ [⟨"create_tag",
          [.str xpath, .elem newelement, .bool false]⟩] ∧
    (m.set_species species_name attributedict Option.none).tasks
      = m.tasks ++ [⟨"set_species",
          [.str species_name, attributedict, .bool false]⟩] ∧
    (m.set_species_label at_label attributedict Option.none).tasks
      = m.tasks ++ [⟨"set_species_label",
          [.str at_label, attributedict, .bool false]⟩] ∧
    (m.set_atomgr_att attributedict Option.none Option.none Option.none).tasks
      = m.tasks ++ [⟨"set_atomgr_att",
          [attributedict, Arg.none, Arg.none, .bool false]⟩] ∧
    (m.set_atomgr_att_label attributedict atom_label Option.none).tasks
      = m.tasks ++ [⟨"set_atomgr_att_label",
          [attributedict, .str atom_label, .bool false]⟩] :=
  ⟨rfl, rfl, rfl, rfl, rfl, rfl, rfl, rfl, rfl, rfl, rfl, rfl⟩

/-- Claim C10: for every tree, applying `apply_modifications` with an empty
task list (and no schema supplied) is the identity: it returns the given tree
with its content unchanged and raises no error. -/
theorem C10_empty_task_list_is_identity (ops : OperationAppliers)
    (resolver : String → XMLItem) (tree : XMLTree) :
    apply_modifications ops resolver tree [] Option.none
      = .ok { tree := tree, invalidWarning := false } := rfl

end AiidaFleur
